import Mathlib

/-!
Verification of the recommendation scoring and caching subsystem of a movie
backend.  The definitions below are a shallow embedding of
`apps/movies_api/services/recommendation_service.py`,
`apps/movies_api/cache.py` and `apps/movies_api/models.py`:
Python floats are modelled as rationals, Django querysets as lists, the
Redis cache as explicit state, and Python exceptions as `Option`/`Except`.
-/

namespace MovieRec

/-- Row of `MovieMetadata` (models.py), restricted to the fields the
scoring subsystem reads. -/
structure Movie where
  id : Nat
  genres : List String
  vote_average : ℚ
  popularity : ℚ
deriving DecidableEq, Repr

/-- Row of `UserProfile` (models.py), restricted to `favorite_genres`. -/
structure Profile where
  favorite_genres : List String
deriving DecidableEq, Repr

/-- Row of `Rating` (models.py); the foreign key `rating.movie` is inlined. -/
structure RatingRec where
  userId : Nat
  movie : Movie
  score : Nat
deriving DecidableEq, Repr

/-- A requester: either anonymous, or an authenticated user whose
one-to-one profile may be absent (`user.profile` raises in Python,
modelled as `none`). -/
inductive Requester where
  | anonymous : Requester
  | auth (id : Nat) (profile : Option Profile) : Requester
deriving DecidableEq, Repr

/-- The metadata store: the `MovieMetadata` and `Rating` relations. -/
structure Store where
  movies : List Movie
  ratings : List RatingRec
deriving Repr

/-- Python `len(set(a) and set(b))` pattern: cardinality of the
intersection of the sets built from two lists,
as in `len(set(favorite_genres) and set(movie.genres))`. -/
def setInterCard (a b : List String) : Nat :=
  (a.dedup.filter (fun g => g ∈ b)).length

/-- Python `round(x, 2)`: round to two decimal places (round-half-up
model; the tie-breaking direction is irrelevant here because every
statement uses this same function on both sides). -/
def round2 (x : ℚ) : ℚ :=
  ((⌊x * 100 + 1 / 2⌋ : ℤ) : ℚ) / 100

/-- `Rating.objects.filter(user=user)` (recommendation_service.py line 39). -/
def userRatings (store : Store) (uid : Nat) : List RatingRec :=
  store.ratings.filter (fun r => r.userId = uid)

/-- `RecommendationService._anonymous_score` (recommendation_service.py
lines 63-70). -/
def anonymous_score (movie : Movie) : ℚ :=
  let rating_score := movie.vote_average / 10 * 50
  let popularity_score := min 50 (movie.popularity / 100 * 50)
  round2 (rating_score + popularity_score)

/-- Genre-match block of `calculate_match_score`
(recommendation_service.py lines 31-36). -/
def genre_score (favorite_genres movie_genres : List String) : ℚ :=
  if favorite_genres ≠ [] ∧ movie_genres ≠ [] then
    let genre_matches := setInterCard favorite_genres movie_genres
    min 40 ((genre_matches : ℚ) / (favorite_genres.length : ℚ) * 40)
  else 0

/-- Rating-history block of `calculate_match_score`
(recommendation_service.py lines 38-51), mirroring the nested
`exists()` guards. -/
def rating_history_score (user_ratings : List RatingRec)
    (movie_genres : List String) : ℚ :=
  if user_ratings ≠ [] then
    let highly_rated := user_ratings.filter (fun r => 4 ≤ r.score)
    if highly_rated ≠ [] then
      let rated_genres := (highly_rated.map (fun r => r.movie.genres)).flatten
      if rated_genres ≠ [] ∧ movie_genres ≠ [] then
        let common_genres := setInterCard rated_genres movie_genres
        min 30 ((common_genres : ℚ) / (rated_genres.dedup.length : ℚ) * 30)
      else 0
    else 0
  else 0

/-- `RecommendationService.calculate_match_score`
(recommendation_service.py lines 16-61). -/
def calculate_match_score (store : Store) (user : Requester)
    (movie : Movie) : ℚ :=
  match user with
  | .anonymous => anonymous_score movie
  | .auth _ none => anonymous_score movie
  | .auth uid (some profile) =>
    let g := genre_score profile.favorite_genres movie.genres
    let h := rating_history_score (userRatings store uid) movie.genres
    let rating_score := movie.vote_average / 10 * 20
    let popularity_score := min 10 (movie.popularity / 100 * 10)
    round2 (g + h + rating_score + popularity_score)

example :
    anonymous_score ⟨1, ["drama", "crime"], 87/10, 897/10⟩ = 8835/100 := by
  simp only [anonymous_score, round2, min_def]
  norm_num

example :
    calculate_match_score ⟨[], []⟩
      (.auth 1 (some ⟨["action", "thriller"]⟩))
      ⟨1, ["action", "thriller"], 9, 200⟩ = 68 := by
  simp [calculate_match_score, genre_score, rating_history_score,
    userRatings, setInterCard, round2, min_def, List.dedup, List.filter]
  norm_num

/-- `Rating.objects.filter(user=user).values_list(movie_id)`
(recommendation_service.py line 91). -/
def ratedMovieIds (store : Store) (uid : Nat) : List Nat :=
  (userRatings store uid).map (fun r => r.movie.id)

/-- Candidate selection of `get_recommendations_for_user`
(recommendation_service.py lines 90-94): authenticated users exclude
movies they already rated. -/
def candidateMovies (store : Store) (user : Requester) : List Movie :=
  match user with
  | .anonymous => store.movies
  | .auth uid _ =>
    store.movies.filter (fun m => decide (m.id ∉ ratedMovieIds store uid))

/-- Comparator of `order_by(minus popularity)`: popularity descending,
stable on ties. -/
def popDescLe (a b : Movie) : Bool :=
  decide (b.popularity ≤ a.popularity)

/-- Comparator of `recommendations.sort(key=match_score, reverse=True)`:
match score descending, stable on ties (Python sort is stable and
`reverse=True` preserves the original order of equal elements). -/
def scoreDescLe (a b : Movie × ℚ) : Bool :=
  decide (b.2 ≤ a.2)

/-- `movies.order_by(minus popularity)[:100]` applied to the candidates
(recommendation_service.py line 97). -/
def top100 (store : Store) (user : Requester) : List Movie :=
  ((candidateMovies store user).mergeSort popDescLe).take 100

/-- Cache-miss computation of
`RecommendationService.get_recommendations_for_user`
(recommendation_service.py lines 89-110): score the top-100 candidates,
sort by match score descending, truncate to the limit. -/
def compute_recommendations (store : Store) (user : Requester)
    (limit : Nat) : List (Movie × ℚ) :=
  let recommendations :=
    (top100 store user).map (fun m => (m, calculate_match_score store user m))
  (recommendations.mergeSort scoreDescLe).take limit

/-- Comparator of `similar.sort(key=(overlap, vote_average), reverse=True)`
(recommendation_service.py line 146): descending lexicographic on
(genre overlap, vote average), stable on ties. -/
def simDescLe (a b : Movie × Nat) : Bool :=
  decide (b.2 < a.2 ∨ (a.2 = b.2 ∧ b.1.vote_average ≤ a.1.vote_average))

/-- Body of `RecommendationService.get_similar_movies` after the
empty-genres early return (recommendation_service.py lines 139-147). -/
def similar_body (store : Store) (movie : Movie) (limit : Nat) :
    List Movie :=
  let similar_movies := store.movies.filter (fun m => decide (m.id ≠ movie.id))
  let similar := similar_movies.filterMap (fun m =>
    if m.genres ≠ [] ∧ setInterCard movie.genres m.genres ≠ 0 then
      some (m, setInterCard movie.genres m.genres)
    else none)
  ((similar.mergeSort simDescLe).take limit).map (fun p => p.1)

/-- Cache-miss computation of `RecommendationService.get_similar_movies`
(recommendation_service.py lines 136-147). -/
def get_similar_movies (store : Store) (movie : Movie) (limit : Nat) :
    List Movie :=
  if movie.genres = [] then [] else similar_body store movie limit

/-- Comparator of the native query
`order_by(minus popularity, minus vote_average)`
(recommendation_service.py line 174): popularity descending, then vote
average descending. -/
def orderByPopVoteDesc (a b : Movie) : Bool :=
  decide (b.popularity < a.popularity ∨
    (a.popularity = b.popularity ∧ b.vote_average ≤ a.vote_average))

/-- Python tuple comparison, ascending lexicographic on a pair of
rationals, as used by `sort(key=(minus popularity, minus vote_average))`. -/
def tupleLexLe (a b : ℚ × ℚ) : Bool :=
  decide (a.1 < b.1 ∨ (a.1 = b.1 ∧ a.2 ≤ b.2))

/-- Native-query strategy of `get_trending_by_genre`
(recommendation_service.py lines 171-175): JSON set-containment filter,
then database ordering, then truncation. -/
def trending_native (store : Store) (genre : String) (limit : Nat) :
    List Movie :=
  (((store.movies.filter (fun m => decide (genre ∈ m.genres))).mergeSort
    orderByPopVoteDesc).take limit)

/-- In-memory fallback strategy of `get_trending_by_genre`
(recommendation_service.py lines 176-181): Python filter
`m.genres and genre in m.genres`, stable ascending sort on the key
(minus popularity, minus vote_average), then truncation. -/
def trending_fallback (store : Store) (genre : String) (limit : Nat) :
    List Movie :=
  let filtered :=
    store.movies.filter (fun m => decide (m.genres ≠ [] ∧ genre ∈ m.genres))
  (filtered.mergeSort (fun a b =>
    tupleLexLe (-a.popularity, -a.vote_average)
      (-b.popularity, -b.vote_average))).take limit

/-- Error raised by the Redis cache backend. -/
inductive CacheErr where
  | backend : CacheErr
deriving DecidableEq, Repr

/-- Behaviour of one `cache.get` call: a hit, a miss, or a raised
backend exception. -/
inductive ReadOutcome (α : Type) where
  | hit (v : α) : ReadOutcome α
  | miss : ReadOutcome α
  | err : ReadOutcome α

/-- Behaviour of one `cache.set` call: success or a raised backend
exception. -/
inductive WriteOutcome where
  | ok : WriteOutcome
  | err : WriteOutcome
deriving DecidableEq, Repr

/-- `cache.get(key)` as a fallible operation. -/
def cache_read {α : Type} (r : ReadOutcome α) : Except CacheErr (Option α) :=
  match r with
  | .hit v => .ok (some v)
  | .miss => .ok none
  | .err => .error .backend

/-- `cache.set(key, value, timeout)` as a fallible operation. -/
def cache_write (w : WriteOutcome) : Except CacheErr Unit :=
  match w with
  | .ok => .ok ()
  | .err => .error .backend

/-- `RecommendationService.get_recommendations_for_user`
(recommendation_service.py lines 72-119) with its two try/except blocks
made explicit: a failing `cache.get` is treated as a miss, a failing
`cache.set` is skipped, and in both cases the freshly computed list is
returned. -/
def get_recommendations_for_user (read : ReadOutcome (List (Movie × ℚ)))
    (write : WriteOutcome) (store : Store) (user : Requester)
    (limit : Nat) : Except CacheErr (List (Movie × ℚ)) :=
  let cached : Option (List (Movie × ℚ)) :=
    match cache_read read with
    | .ok v => v
    | .error _ => none
  match cached with
  | some v => .ok v
  | none =>
    let results := compute_recommendations store user limit
    match cache_write write with
    | .ok _ => .ok results
    | .error _ => .ok results

/-- State of the Redis cache, one association list per key namespace
used by the three query engines (the namespaces are disjoint in the
real key space). -/
structure CacheState where
  recs : List (String × List (Movie × ℚ))
  sims : List (String × List Movie)
  trend : List (String × List Movie)

/-- `cache.get(k)` against an association list. -/
def lookupKey {α : Type} (c : List (String × α)) (k : String) : Option α :=
  (c.find? (fun p => decide (p.1 = k))).map (fun p => p.2)

/-- `cache.set(k, v)` against an association list; the new entry shadows
any previous one. -/
def storeKey {α : Type} (c : List (String × α)) (k : String) (v : α) :
    List (String × α) :=
  (k, v) :: c

/-- Key string of recommendation results (recommendation_service.py
lines 78-79). -/
def recKey (user : Requester) (limit : Nat) : String :=
  let uid :=
    match user with
    | .anonymous => "anonymous"
    | .auth uid _ => toString uid
  "recommendations:user:" ++ uid ++ ":limit:" ++ toString limit

/-- Key string of similar-movie results (recommendation_service.py
line 127). -/
def simKey (movie : Movie) (limit : Nat) : String :=
  "similar_movies:movie:" ++ toString movie.id ++ ":limit:" ++ toString limit

/-- Key string of trending results (recommendation_service.py line 162). -/
def trendKey (genre : String) (limit : Nat) : String :=
  "trending:genre:" ++ genre ++ ":limit:" ++ toString limit

/-- Stateful `get_recommendations_for_user` against an explicit cache;
the boolean reports whether the metadata store was queried. -/
def get_recommendations_cached (store : Store) (user : Requester)
    (limit : Nat) (c : CacheState) :
    List (Movie × ℚ) × CacheState × Bool :=
  match lookupKey c.recs (recKey user limit) with
  | some v => (v, c, false)
  | none =>
    let results := compute_recommendations store user limit
    (results, { c with recs := storeKey c.recs (recKey user limit) results },
      true)

/-- Stateful `get_similar_movies` against an explicit cache; the
empty-genres early return happens after the cache lookup and neither
queries the store nor writes the cache (recommendation_service.py
lines 129-137). -/
def get_similar_cached (store : Store) (movie : Movie) (limit : Nat)
    (c : CacheState) : List Movie × CacheState × Bool :=
  match lookupKey c.sims (simKey movie limit) with
  | some v => (v, c, false)
  | none =>
    if movie.genres = [] then ([], c, false)
    else
      let results := similar_body store movie limit
      (results, { c with sims := storeKey c.sims (simKey movie limit) results },
        true)

/-- Stateful `get_trending_by_genre` against an explicit cache;
`supportsContains` is `connection.features.supports_json_field_contains`
(recommendation_service.py line 171). -/
def get_trending_cached (supportsContains : Bool) (store : Store)
    (genre : String) (limit : Nat) (c : CacheState) :
    List Movie × CacheState × Bool :=
  match lookupKey c.trend (trendKey genre limit) with
  | some v => (v, c, false)
  | none =>
    let results :=
      if supportsContains then trending_native store genre limit
      else trending_fallback store genre limit
    (results, { c with trend := storeKey c.trend (trendKey genre limit) results },
      true)

/-- Redis `KEYS pattern` glob matching, restricted to the literal
characters and the star wildcard, which are the only constructs
appearing in the patterns of cache.py.  The fuel argument makes the
recursion structural; `globMatch` supplies fuel exceeding the
decreasing measure `p.length + 2 * s.length`, so the fuel never runs
out. -/
def globMatchFuel : Nat → List Char → List Char → Bool
  | 0, _, _ => false
  | _ + 1, [], [] => true
  | _ + 1, [], _ :: _ => false
  | n + 1, p :: ps, [] => if p = '*' then globMatchFuel n ps [] else false
  | n + 1, p :: ps, c :: cs =>
    if p = '*' then
      globMatchFuel n ps (c :: cs) || globMatchFuel n (p :: ps) cs
    else p = c && globMatchFuel n ps cs

/-- Redis `KEYS pattern` matching of a pattern against a key. -/
def globMatch (p s : List Char) : Bool :=
  globMatchFuel (p.length + 2 * s.length + 1) p s

/-- `CacheManager.invalidate_pattern` (cache.py lines 58-81): delete
every key matching the glob pattern. -/
def invalidate_pattern (pattern : String) (keys : List String) :
    List String :=
  keys.filter (fun k => !(globMatch pattern.data k.data))

/-- `CacheManager.invalidate_movie` (cache.py lines 83-99). -/
def invalidate_movie (movie_id : Nat) (keys : List String) : List String :=
  let patterns := ["movie:" ++ toString movie_id ++ ":*",
                   "movie_detail:" ++ toString movie_id,
                   "movie_list:*",
                   "recommendations:*"]
  patterns.foldl (fun ks p => invalidate_pattern p ks) keys

/-- `CacheManager.invalidate_user_cache` (cache.py lines 101-116). -/
def invalidate_user_cache (user_id : Nat) (keys : List String) :
    List String :=
  let patterns := ["user:" ++ toString user_id ++ ":*",
                   "recommendations:user:" ++ toString user_id,
                   "ratings:user:" ++ toString user_id]
  patterns.foldl (fun ks p => invalidate_pattern p ks) keys

/-- ASCII model of a character step of Python `str.lower`, matching the
basic-latin behaviour of `Char.toLower`. -/
def lowerChar (c : Char) : Char := c.toLower

/-- ASCII model of Python `str.lower`, as applied to every genre by
`MovieMetadata.save` (models.py lines 40-44). -/
def strLower (s : String) : String :=
  String.mk (s.data.map lowerChar)

/-- Genre normalisation performed by `MovieMetadata.save`:
`[g.lower() for g in self.genres]`. -/
def normalize_genres (gs : List String) : List String :=
  gs.map strLower

/-- ASCII uppercase test, the scalar range of `A` to `Z` (the same range
`Char.isUpper` and `Char.toLower` use). -/
def isUpperAscii (c : Char) : Bool :=
  65 ≤ c.toNat && c.toNat ≤ 90

/-- Does the string contain an uppercase basic-latin letter? -/
def hasUpperChar (s : String) : Bool :=
  s.data.any isUpperAscii

/-- Division that fails on a zero divisor, as Python division raises
`ZeroDivisionError`. -/
def checkedDiv (a b : ℚ) : Option ℚ :=
  if b = 0 then none else some (a / b)

/-- Genre-match block with the division made fallible; `none` would mean
the code reached a division by zero. -/
def genre_score_checked (favorite_genres movie_genres : List String) :
    Option ℚ :=
  if favorite_genres ≠ [] ∧ movie_genres ≠ [] then
    (checkedDiv (setInterCard favorite_genres movie_genres : ℚ)
      (favorite_genres.length : ℚ)).map (fun q => min 40 (q * 40))
  else some 0

/-- Rating-history block with the division made fallible. -/
def rating_history_score_checked (user_ratings : List RatingRec)
    (movie_genres : List String) : Option ℚ :=
  if user_ratings ≠ [] then
    let highly_rated := user_ratings.filter (fun r => 4 ≤ r.score)
    if highly_rated ≠ [] then
      let rated_genres := (highly_rated.map (fun r => r.movie.genres)).flatten
      if rated_genres ≠ [] ∧ movie_genres ≠ [] then
        (checkedDiv (setInterCard rated_genres movie_genres : ℚ)
          (rated_genres.dedup.length : ℚ)).map (fun q => min 30 (q * 30))
      else some 0
    else some 0
  else some 0

/-- `calculate_match_score` on the authenticated-with-profile path with
every division made fallible. -/
def calculate_match_score_checked (store : Store) (uid : Nat)
    (profile : Profile) (movie : Movie) : Option ℚ :=
  match genre_score_checked profile.favorite_genres movie.genres,
      rating_history_score_checked (userRatings store uid) movie.genres with
  | some g, some h =>
    some (round2 (g + h + movie.vote_average / 10 * 20 +
      min 10 (movie.popularity / 100 * 10)))
  | _, _ => none

/-- Genre-match term as the spec states it: `min(40, card(F inter G) /
card F * 40)` over the favorite-genre set `F` and the movie genre set
`G`, and `0` when either set is empty. -/
def specGenreTerm (F G : List String) : ℚ :=
  if F.dedup = [] ∨ G.dedup = [] then 0
  else min 40 ((setInterCard F G : ℚ) / (F.dedup.length : ℚ) * 40)

/-- The set `H` of the spec: all genres appearing on movies the user
rated at least 4, duplicates removed. -/
def specH (store : Store) (uid : Nat) : List String :=
  (((userRatings store uid).filter (fun r => 4 ≤ r.score)).map
    (fun r => r.movie.genres)).flatten.dedup

/-- Rating-history term as the spec states it: `min(30, card(H inter G)
/ card H * 30)`, and `0` when `H` or `G` is empty. -/
def specHistoryTerm (H G : List String) : ℚ :=
  if H = [] ∨ G = [] then 0
  else min 30 ((setInterCard H G : ℚ) / (H.length : ℚ) * 30)

/-- Quality term as the spec states it. -/
def specQualityTerm (movie : Movie) : ℚ :=
  movie.vote_average / 10 * 20

/-- Popularity term as the spec states it. -/
def specPopularityTerm (movie : Movie) : ℚ :=
  min 10 (movie.popularity / 100 * 10)

/-- The value just written is the one found by the next lookup. -/
theorem lookupKey_storeKey {α : Type} (c : List (String × α)) (k : String)
    (v : α) : lookupKey (storeKey c k v) k = some v := by
  simp [lookupKey, storeKey, List.find?]

/-- C2: for every movie, an anonymous requester and an authenticated
requester without a profile both get the quality-only score
`round((voteAverage/10)*50 + min(50, (popularity/100)*50), 2)`, computed
locally with no dependency on the rating store. -/
theorem c2_quality_only_score (store : Store) (movie : Movie) (uid : Nat) :
    calculate_match_score store .anonymous movie
        = round2 (movie.vote_average / 10 * 50 +
            min 50 (movie.popularity / 100 * 50))
    ∧ calculate_match_score store (.auth uid none) movie
        = round2 (movie.vote_average / 10 * 50 +
            min 50 (movie.popularity / 100 * 50))
    ∧ (∀ s1 s2 : Store,
        calculate_match_score s1 .anonymous movie
          = calculate_match_score s2 .anonymous movie)
    ∧ (∀ s1 s2 : Store,
        calculate_match_score s1 (.auth uid none) movie
          = calculate_match_score s2 (.auth uid none) movie) :=
  ⟨rfl, rfl, fun _ _ => rfl, fun _ _ => rfl⟩

/-- C7: when the cache read raises, and whatever the cache write does,
`get_recommendations_for_user` returns exactly the freshly computed
recommendation list; when the read misses and the write raises it does
the same; and no cache exception ever propagates to the caller. -/
theorem c7_cache_failure_returns_fresh (write : WriteOutcome)
    (store : Store) (user : Requester) (limit : Nat) :
    get_recommendations_for_user .err write store user limit
        = .ok (compute_recommendations store user limit)
    ∧ get_recommendations_for_user .miss .err store user limit
        = .ok (compute_recommendations store user limit)
    ∧ (∀ read : ReadOutcome (List (Movie × ℚ)), ∃ v,
        get_recommendations_for_user read write store user limit = .ok v) := by
  refine ⟨by cases write <;> rfl, rfl, ?_⟩
  intro read
  cases read with
  | hit v => exact ⟨v, rfl⟩
  | miss => exact ⟨_, by cases write <;> rfl⟩
  | err => exact ⟨_, by cases write <;> rfl⟩

/-- C9: calling the same recommendation, similarity, or trending query
twice with no intervening mutation returns identical results, and the
second call never queries the metadata store. -/
theorem c9_second_call_hits_cache (store : Store) (user : Requester)
    (movie : Movie) (genre : String) (limit : Nat) (flag : Bool)
    (c : CacheState) :
    ((get_recommendations_cached store user limit
        (get_recommendations_cached store user limit c).2.1).1
      = (get_recommendations_cached store user limit c).1
    ∧ (get_recommendations_cached store user limit
        (get_recommendations_cached store user limit c).2.1).2.2 = false)
    ∧ ((get_similar_cached store movie limit
        (get_similar_cached store movie limit c).2.1).1
      = (get_similar_cached store movie limit c).1
    ∧ (get_similar_cached store movie limit
        (get_similar_cached store movie limit c).2.1).2.2 = false)
    ∧ ((get_trending_cached flag store genre limit
        (get_trending_cached flag store genre limit c).2.1).1
      = (get_trending_cached flag store genre limit c).1
    ∧ (get_trending_cached flag store genre limit
        (get_trending_cached flag store genre limit c).2.1).2.2 = false) := by
  refine ⟨?_, ?_, ?_⟩
  · cases h : lookupKey c.recs (recKey user limit) with
    | some v => simp [get_recommendations_cached, h]
    | none => simp [get_recommendations_cached, h, lookupKey_storeKey]
  · cases h : lookupKey c.sims (simKey movie limit) with
    | some v => simp [get_similar_cached, h]
    | none =>
      by_cases hg : movie.genres = [] <;>
        simp [get_similar_cached, h, hg, lookupKey_storeKey]
  · cases h : lookupKey c.trend (trendKey genre limit) with
    | some v => simp [get_trending_cached, h]
    | none => simp [get_trending_cached, h, lookupKey_storeKey]

/-- C4: the invalidation fan-out misses the keys the system writes.  On
a movie mutation (movie id 1) the detail key `movie:detail:1`, the list
key `movie:list:9f3a` and the similarity key
`similar_movies:movie:1:limit:10` all survive, because the patterns of
`invalidate_movie` are `movie_detail:1`, `movie_list:*` and `movie:1:*`;
only `recommendations:*` matches anything.  On a rating mutation (user
id 2 on movie id 1, which runs `invalidate_user_cache(2)` then
`invalidate_movie(1)`) the stats key `user_stats:user:2`, the detail key
and the similarity key survive, because the user patterns are
`user:2:*`, `recommendations:user:2` and `ratings:user:2`. -/
theorem c4_invalidation_misses_written_keys :
    invalidate_movie 1 ["movie:detail:1", "movie:list:9f3a",
        "similar_movies:movie:1:limit:10", "recommendations:user:2:limit:20"]
      = ["movie:detail:1", "movie:list:9f3a",
        "similar_movies:movie:1:limit:10"]
    ∧ invalidate_movie 1 (invalidate_user_cache 2
        ["user_stats:user:2", "ratings:user:2",
          "recommendations:user:2:limit:20", "movie:detail:1",
          "similar_movies:movie:1:limit:10"])
      = ["user_stats:user:2", "movie:detail:1",
        "similar_movies:movie:1:limit:10"] := by
  decide

/-- Deduplicating the left list first does not change the intersection
cardinality. -/
theorem setInterCard_dedup (l G : List String) :
    setInterCard l.dedup G = setInterCard l G := by
  simp [setInterCard, List.dedup_idem]

/-- The genre-match block of the code computes the genre term of the
spec, provided the profile list is duplicate-free (the data model keeps
`favoriteGenres` a set). -/
theorem genre_score_eq_spec (F G : List String) (h : F.Nodup) :
    genre_score F G = specGenreTerm F G := by
  have hd : F.dedup = F := List.dedup_eq_self.mpr h
  by_cases hF : F = []
  · simp [genre_score, specGenreTerm, hF]
  by_cases hG : G = []
  · simp [genre_score, specGenreTerm, hF, hG]
  · simp [genre_score, specGenreTerm, hF, hG, List.dedup_eq_nil, hd]

/-- The rating-history block of the code computes the history term of
the spec over the deduplicated highly-rated genre set `H`. -/
theorem rating_history_eq_spec (store : Store) (uid : Nat)
    (G : List String) :
    rating_history_score (userRatings store uid) G
      = specHistoryTerm (specH store uid) G := by
  unfold rating_history_score specHistoryTerm specH
  by_cases h1 : userRatings store uid = []
  · simp [h1]
  rw [if_pos h1]
  by_cases h2 : (userRatings store uid).filter (fun r => 4 ≤ r.score) = []
  · simp [h2]
  rw [if_pos h2]
  by_cases h3 :
      (((userRatings store uid).filter (fun r => 4 ≤ r.score)).map
        (fun r => r.movie.genres)).flatten = []
  · simp [h3]
  by_cases hG : G = []
  · simp [h3, hG]
  · rw [if_pos ⟨h3, hG⟩, if_neg]
    · rw [setInterCard_dedup]
    · rw [not_or, List.dedup_eq_nil]
      exact ⟨h3, hG⟩

/-- C1: for an authenticated user with a duplicate-free favorite-genre
profile, the match score is the rounded sum of the four spec terms:
genre match over `F`, rating-history match over `H`, quality, and
popularity. -/
theorem c1_match_score_formula (store : Store) (uid : Nat)
    (profile : Profile) (movie : Movie)
    (h : profile.favorite_genres.Nodup) :
    calculate_match_score store (.auth uid (some profile)) movie
      = round2 (specGenreTerm profile.favorite_genres movie.genres
          + specHistoryTerm (specH store uid) movie.genres
          + specQualityTerm movie + specPopularityTerm movie) := by
  unfold specQualityTerm specPopularityTerm
  show round2 (genre_score profile.favorite_genres movie.genres
      + rating_history_score (userRatings store uid) movie.genres
      + movie.vote_average / 10 * 20
      + min 10 (movie.popularity / 100 * 10)) = _
  rw [genre_score_eq_spec _ _ h, rating_history_eq_spec]

/-- Closed instance of the C1 theorem at a concrete store, profile and
movie, with the duplicate-freeness hypothesis discharged by `decide`. -/
theorem c1_match_score_formula_witness :
    calculate_match_score
        ⟨[⟨1, ["action"], 9, 200⟩], [⟨1, ⟨2, ["drama", "action"], 8, 50⟩, 5⟩]⟩
        (.auth 1 (some ⟨["action", "thriller"]⟩)) ⟨1, ["action"], 9, 200⟩
      = round2 (specGenreTerm ["action", "thriller"] ["action"]
          + specHistoryTerm
              (specH ⟨[⟨1, ["action"], 9, 200⟩],
                [⟨1, ⟨2, ["drama", "action"], 8, 50⟩, 5⟩]⟩ 1) ["action"]
          + specQualityTerm ⟨1, ["action"], 9, 200⟩
          + specPopularityTerm ⟨1, ["action"], 9, 200⟩) :=
  c1_match_score_formula _ 1 ⟨["action", "thriller"]⟩ _ (by decide)

/-- The fallible genre-match block never fails: its division is guarded
by the emptiness short-circuit. -/
theorem genre_score_checked_eq (F G : List String) :
    genre_score_checked F G = some (genre_score F G) := by
  unfold genre_score_checked genre_score checkedDiv
  by_cases hF : F = []
  · simp [hF]
  by_cases hG : G = []
  · simp [hF, hG]
  · have hlen : (F.length : ℚ) ≠ 0 := by
      simpa [List.length_eq_zero] using hF
    simp [hF, hG, hlen]

/-- The fallible rating-history block never fails: its division is
guarded by the emptiness short-circuits. -/
theorem rating_history_checked_eq (user_ratings : List RatingRec)
    (G : List String) :
    rating_history_score_checked user_ratings G
      = some (rating_history_score user_ratings G) := by
  unfold rating_history_score_checked rating_history_score checkedDiv
  by_cases h1 : user_ratings = []
  · simp [h1]
  rw [if_pos h1, if_pos h1]
  by_cases h2 : user_ratings.filter (fun r => 4 ≤ r.score) = []
  · simp [h2]
  rw [if_pos h2, if_pos h2]
  by_cases h3 :
      ((user_ratings.filter (fun r => 4 ≤ r.score)).map
        (fun r => r.movie.genres)).flatten = []
  · simp [h3]
  by_cases hG : G = []
  · simp [h3, hG]
  · have hlen :
        ((((user_ratings.filter (fun r => 4 ≤ r.score)).map
          (fun r => r.movie.genres)).flatten.dedup.length : ℚ)) ≠ 0 := by
      simpa [List.length_eq_zero, List.dedup_eq_nil] using h3
    simp [h3, hG, hlen]

/-- C8: `calculate_match_score` never reaches a division with a zero
divisor — the checked variant, in which every division fails on a zero
divisor, always succeeds and returns the very score the code computes —
and the empty-favorites, empty-genres and empty-history cases each zero
the corresponding term by the structural short-circuit. -/
theorem c8_no_division_by_zero (store : Store) (uid : Nat)
    (profile : Profile) (movie : Movie) :
    calculate_match_score_checked store uid profile movie
        = some (calculate_match_score store (.auth uid (some profile)) movie)
    ∧ (profile.favorite_genres = [] →
        genre_score profile.favorite_genres movie.genres = 0)
    ∧ (movie.genres = [] →
        genre_score profile.favorite_genres movie.genres = 0
        ∧ rating_history_score (userRatings store uid) movie.genres = 0)
    ∧ (specH store uid = [] →
        rating_history_score (userRatings store uid) movie.genres = 0) := by
  refine ⟨?_, ?_, ?_, ?_⟩
  · unfold calculate_match_score_checked
    rw [genre_score_checked_eq, rating_history_checked_eq]
    rfl
  · intro hF
    simp [genre_score, hF]
  · intro hG
    constructor
    · simp [genre_score, hG]
    · unfold rating_history_score
      by_cases h1 : userRatings store uid = []
      · simp [h1]
      · by_cases h2 : (userRatings store uid).filter (fun r => 4 ≤ r.score) = []
        · simp [h1, h2]
        · simp [h1, h2, hG]
  · intro hH
    rw [rating_history_eq_spec store uid movie.genres, specHistoryTerm,
      if_pos (Or.inl hH)]

/-- Closed instance of the C8 theorem at a concrete store, profile and
movie. -/
theorem c8_no_division_by_zero_witness :
    calculate_match_score_checked ⟨[], []⟩ 1 ⟨[]⟩ ⟨1, [], 0, 0⟩
        = some (calculate_match_score ⟨[], []⟩ (.auth 1 (some ⟨[]⟩))
            ⟨1, [], 0, 0⟩)
    ∧ ((⟨[]⟩ : Profile).favorite_genres = [] →
        genre_score (Profile.mk []).favorite_genres [] = 0)
    ∧ ((⟨1, [], 0, 0⟩ : Movie).genres = [] →
        genre_score (Profile.mk []).favorite_genres [] = 0
        ∧ rating_history_score (userRatings ⟨[], []⟩ 1) [] = 0)
    ∧ (specH ⟨[], []⟩ 1 = [] →
        rating_history_score (userRatings ⟨[], []⟩ 1) [] = 0) :=
  c8_no_division_by_zero ⟨[], []⟩ 1 ⟨[]⟩ ⟨1, [], 0, 0⟩

/-- The native containment filter and the fallback Python filter accept
the same movies: membership of the genre already forces the genre list
to be non-empty. -/
theorem trending_filter_eq (store : Store) (genre : String) :
    store.movies.filter (fun m => decide (genre ∈ m.genres))
      = store.movies.filter
          (fun m => decide (m.genres ≠ [] ∧ genre ∈ m.genres)) := by
  apply List.filter_congr
  intro m _
  simp only [decide_eq_decide]
  constructor
  · intro hm
    exact ⟨List.ne_nil_of_mem hm, hm⟩
  · intro hm
    exact hm.2

/-- The Python ascending sort on the key (minus popularity, minus vote
average) is the same comparison as the database ordering popularity
descending then vote average descending. -/
theorem trending_comparator_eq :
    (fun a b : Movie => tupleLexLe (-a.popularity, -a.vote_average)
        (-b.popularity, -b.vote_average)) = orderByPopVoteDesc := by
  funext a b
  simp only [tupleLexLe, orderByPopVoteDesc, decide_eq_decide]
  constructor
  · rintro (h | ⟨h1, h2⟩)
    · exact Or.inl (by linarith)
    · exact Or.inr ⟨by linarith, by linarith⟩
  · rintro (h | ⟨h1, h2⟩)
    · exact Or.inl (by linarith)
    · exact Or.inr ⟨by linarith, by linarith⟩

/-- Transitivity of the trending comparator. -/
theorem orderByPopVoteDesc_trans (a b c : Movie) :
    orderByPopVoteDesc a b → orderByPopVoteDesc b c →
      orderByPopVoteDesc a c := by
  simp only [orderByPopVoteDesc, decide_eq_true_eq]
  rintro (h | ⟨h1, h2⟩) (g | ⟨g1, g2⟩)
  · exact Or.inl (by linarith)
  · exact Or.inl (by linarith)
  · exact Or.inl (by linarith)
  · exact Or.inr ⟨by linarith, by linarith⟩

/-- Totality of the trending comparator. -/
theorem orderByPopVoteDesc_total (a b : Movie) :
    orderByPopVoteDesc a b || orderByPopVoteDesc b a := by
  simp only [orderByPopVoteDesc, Bool.or_eq_true, decide_eq_true_eq]
  rcases lt_trichotomy a.popularity b.popularity with h | h | h
  · exact Or.inr (Or.inl h)
  · rcases le_total b.vote_average a.vote_average with hv | hv
    · exact Or.inl (Or.inr ⟨h, hv⟩)
    · exact Or.inr (Or.inr ⟨h.symm, hv⟩)
  · exact Or.inl (Or.inl h)

/-- C5: the native set-containment strategy and the in-memory fallback
of `get_trending_by_genre` return identical results — the same movies,
exactly those of the store whose genre list contains the query genre, in
popularity-descending then vote-average-descending order, truncated to
the limit. -/
theorem c5_trending_strategies_agree (store : Store) (genre : String)
    (limit : Nat) :
    trending_native store genre limit = trending_fallback store genre limit
    ∧ (∀ m ∈ trending_native store genre limit,
        genre ∈ m.genres ∧ m ∈ store.movies)
    ∧ List.Pairwise (fun a b : Movie => b.popularity < a.popularity ∨
        (a.popularity = b.popularity ∧ b.vote_average ≤ a.vote_average))
        (trending_native store genre limit)
    ∧ (trending_native store genre limit).length ≤ limit := by
  refine ⟨?_, ?_, ?_, ?_⟩
  · unfold trending_native trending_fallback
    rw [trending_filter_eq, trending_comparator_eq]
  · intro m hm
    unfold trending_native at hm
    have hm2 := List.mem_filter.mp
      (List.mem_mergeSort.mp (List.take_subset _ _ hm))
    exact ⟨of_decide_eq_true hm2.2, hm2.1⟩
  · have hs := List.sorted_mergeSort orderByPopVoteDesc_trans
      orderByPopVoteDesc_total
      (store.movies.filter (fun m => decide (genre ∈ m.genres)))
    have ht := hs.sublist (List.take_sublist limit _)
    exact ht.imp (fun hab => by
      simpa [orderByPopVoteDesc, decide_eq_true_eq] using hab)
  · unfold trending_native
    rw [List.length_take]
    exact min_le_left _ _

/-- Closed instance of the C5 theorem at a concrete store, the genre
scenario of the spec. -/
theorem c5_trending_strategies_agree_witness :
    trending_native ⟨[⟨1, ["drama"], 8, 90⟩, ⟨2, ["action"], 7, 95⟩,
        ⟨3, ["drama", "action"], 6, 80⟩], []⟩ "drama" 10
      = trending_fallback ⟨[⟨1, ["drama"], 8, 90⟩, ⟨2, ["action"], 7, 95⟩,
        ⟨3, ["drama", "action"], 6, 80⟩], []⟩ "drama" 10
    ∧ (∀ m ∈ trending_native ⟨[⟨1, ["drama"], 8, 90⟩, ⟨2, ["action"], 7, 95⟩,
        ⟨3, ["drama", "action"], 6, 80⟩], []⟩ "drama" 10,
        "drama" ∈ m.genres
        ∧ m ∈ (⟨[⟨1, ["drama"], 8, 90⟩, ⟨2, ["action"], 7, 95⟩,
            ⟨3, ["drama", "action"], 6, 80⟩], []⟩ : Store).movies)
    ∧ List.Pairwise (fun a b : Movie => b.popularity < a.popularity ∨
        (a.popularity = b.popularity ∧ b.vote_average ≤ a.vote_average))
        (trending_native ⟨[⟨1, ["drama"], 8, 90⟩, ⟨2, ["action"], 7, 95⟩,
          ⟨3, ["drama", "action"], 6, 80⟩], []⟩ "drama" 10)
    ∧ (trending_native ⟨[⟨1, ["drama"], 8, 90⟩, ⟨2, ["action"], 7, 95⟩,
        ⟨3, ["drama", "action"], 6, 80⟩], []⟩ "drama" 10).length ≤ 10 :=
  c5_trending_strategies_agree _ "drama" 10

/-- Transitivity of the match-score comparator. -/
theorem scoreDescLe_trans (a b c : Movie × ℚ) :
    scoreDescLe a b → scoreDescLe b c → scoreDescLe a c := by
  simp only [scoreDescLe, decide_eq_true_eq]
  exact fun h g => le_trans g h

/-- Totality of the match-score comparator. -/
theorem scoreDescLe_total (a b : Movie × ℚ) :
    scoreDescLe a b || scoreDescLe b a := by
  simp only [scoreDescLe, Bool.or_eq_true, decide_eq_true_eq]
  exact le_total b.2 a.2

/-- C3: `get_recommendations_for_user` returns at most `limit` entries,
never includes a movie the authenticated user already rated, draws its
entries only from the 100 most popular candidates, and is sorted by
descending match score. -/
theorem c3_recommendations_contract (store : Store) (user : Requester)
    (limit : Nat) :
    (compute_recommendations store user limit).length ≤ limit
    ∧ (∀ p ∈ compute_recommendations store user limit, ∀ uid prof,
        user = Requester.auth uid prof → p.1.id ∉ ratedMovieIds store uid)
    ∧ (∀ p ∈ compute_recommendations store user limit,
        p.1 ∈ top100 store user)
    ∧ List.Pairwise (fun a b : Movie × ℚ => b.2 ≤ a.2)
        (compute_recommendations store user limit) := by
  refine ⟨?_, ?_, ?_, ?_⟩
  · unfold compute_recommendations
    rw [List.length_take]
    exact min_le_left _ _
  · intro p hp uid prof huser
    subst huser
    have hp2 := List.mem_mergeSort.mp (List.take_subset _ _ hp)
    obtain ⟨m, hm, heq⟩ := List.mem_map.mp hp2
    unfold top100 at hm
    have hmc : m ∈ candidateMovies store (.auth uid prof) :=
      List.mem_mergeSort.mp (List.take_subset _ _ hm)
    have hmf : m ∈ store.movies.filter
        (fun m => decide (m.id ∉ ratedMovieIds store uid)) := hmc
    rw [← heq]
    exact of_decide_eq_true (List.mem_filter.mp hmf).2
  · intro p hp
    have hp2 := List.mem_mergeSort.mp (List.take_subset _ _ hp)
    obtain ⟨m, hm, heq⟩ := List.mem_map.mp hp2
    rw [← heq]
    exact hm
  · have hs := List.sorted_mergeSort scoreDescLe_trans scoreDescLe_total
      ((top100 store user).map
        (fun m => (m, calculate_match_score store user m)))
    have ht := hs.sublist (List.take_sublist limit _)
    exact ht.imp (fun hab => by
      simpa [scoreDescLe, decide_eq_true_eq] using hab)

/-- Closed instance of the C3 theorem at a concrete store, user and
limit. -/
theorem c3_recommendations_contract_witness :
    (compute_recommendations
        ⟨[⟨1, ["drama"], 8, 90⟩, ⟨2, ["action"], 7, 95⟩],
          [⟨7, ⟨1, ["drama"], 8, 90⟩, 5⟩]⟩
        (.auth 7 (some ⟨["drama"]⟩)) 1).length ≤ 1
    ∧ (∀ p ∈ compute_recommendations
        ⟨[⟨1, ["drama"], 8, 90⟩, ⟨2, ["action"], 7, 95⟩],
          [⟨7, ⟨1, ["drama"], 8, 90⟩, 5⟩]⟩
        (.auth 7 (some ⟨["drama"]⟩)) 1, ∀ uid prof,
        Requester.auth 7 (some ⟨["drama"]⟩) = Requester.auth uid prof →
          p.1.id ∉ ratedMovieIds
            ⟨[⟨1, ["drama"], 8, 90⟩, ⟨2, ["action"], 7, 95⟩],
              [⟨7, ⟨1, ["drama"], 8, 90⟩, 5⟩]⟩ uid)
    ∧ (∀ p ∈ compute_recommendations
        ⟨[⟨1, ["drama"], 8, 90⟩, ⟨2, ["action"], 7, 95⟩],
          [⟨7, ⟨1, ["drama"], 8, 90⟩, 5⟩]⟩
        (.auth 7 (some ⟨["drama"]⟩)) 1,
        p.1 ∈ top100
          ⟨[⟨1, ["drama"], 8, 90⟩, ⟨2, ["action"], 7, 95⟩],
            [⟨7, ⟨1, ["drama"], 8, 90⟩, 5⟩]⟩
          (.auth 7 (some ⟨["drama"]⟩)))
    ∧ List.Pairwise (fun a b : Movie × ℚ => b.2 ≤ a.2)
        (compute_recommendations
          ⟨[⟨1, ["drama"], 8, 90⟩, ⟨2, ["action"], 7, 95⟩],
            [⟨7, ⟨1, ["drama"], 8, 90⟩, 5⟩]⟩
          (.auth 7 (some ⟨["drama"]⟩)) 1) :=
  c3_recommendations_contract _ (.auth 7 (some ⟨["drama"]⟩)) 1

/-- Transitivity of the similarity comparator. -/
theorem simDescLe_trans (a b c : Movie × Nat) :
    simDescLe a b → simDescLe b c → simDescLe a c := by
  simp only [simDescLe, decide_eq_true_eq]
  rintro (h | ⟨h1, h2⟩) (g | ⟨g1, g2⟩)
  · exact Or.inl (by omega)
  · exact Or.inl (by omega)
  · exact Or.inl (by omega)
  · exact Or.inr ⟨by omega, le_trans g2 h2⟩

/-- Totality of the similarity comparator. -/
theorem simDescLe_total (a b : Movie × Nat) :
    simDescLe a b || simDescLe b a := by
  simp only [simDescLe, Bool.or_eq_true, decide_eq_true_eq]
  rcases lt_trichotomy a.2 b.2 with h | h | h
  · exact Or.inr (Or.inl h)
  · rcases le_total b.1.vote_average a.1.vote_average with hv | hv
    · exact Or.inl (Or.inr ⟨h, hv⟩)
    · exact Or.inr (Or.inr ⟨h.symm, hv⟩)
  · exact Or.inl (Or.inl h)

/-- A non-empty intersection cardinality yields a shared element. -/
theorem exists_of_setInterCard_ne (a b : List String)
    (h : setInterCard a b ≠ 0) : ∃ g, g ∈ a ∧ g ∈ b := by
  unfold setInterCard at h
  have hne : a.dedup.filter (fun g => g ∈ b) ≠ [] := by
    intro hnil
    rw [hnil] at h
    exact h rfl
  obtain ⟨g, hg⟩ := List.exists_mem_of_ne_nil _ hne
  have hg2 := List.mem_filter.mp hg
  exact ⟨g, List.mem_dedup.mp hg2.1, of_decide_eq_true hg2.2⟩

/-- Every pair produced by the similarity candidate scan stores the
genre overlap of its movie and satisfies the scan's guards. -/
theorem similar_pair_inv (store : Store) (movie : Movie) (p : Movie × Nat)
    (hp : p ∈ (store.movies.filter
        (fun m => decide (m.id ≠ movie.id))).filterMap
      (fun m => if m.genres ≠ [] ∧ setInterCard movie.genres m.genres ≠ 0
        then some (m, setInterCard movie.genres m.genres) else none)) :
    p.2 = setInterCard movie.genres p.1.genres
    ∧ p.1.id ≠ movie.id ∧ p.1.genres ≠ []
    ∧ setInterCard movie.genres p.1.genres ≠ 0 := by
  obtain ⟨m, hm, hsome⟩ := List.mem_filterMap.mp hp
  by_cases hc : m.genres ≠ [] ∧ setInterCard movie.genres m.genres ≠ 0
  · rw [if_pos hc] at hsome
    obtain rfl := Option.some_injective _ hsome
    have hid := of_decide_eq_true (List.mem_filter.mp hm).2
    exact ⟨rfl, hid, hc.1, hc.2⟩
  · rw [if_neg hc] at hsome
    cases hsome

/-- C6: `get_similar_movies` never returns the source movie, returns the
empty list when the source has no genres, returns only movies sharing a
genre with the source, is sorted by descending genre overlap with ties
broken by descending vote average, and has length at most the limit. -/
theorem c6_similar_movies_contract (store : Store) (movie : Movie)
    (limit : Nat) :
    movie ∉ get_similar_movies store movie limit
    ∧ (movie.genres = [] → get_similar_movies store movie limit = [])
    ∧ (∀ m ∈ get_similar_movies store movie limit,
        m.id ≠ movie.id ∧ ∃ g, g ∈ movie.genres ∧ g ∈ m.genres)
    ∧ List.Pairwise (fun a b : Movie =>
        setInterCard movie.genres b.genres < setInterCard movie.genres a.genres
        ∨ (setInterCard movie.genres a.genres
              = setInterCard movie.genres b.genres
            ∧ b.vote_average ≤ a.vote_average))
        (get_similar_movies store movie limit)
    ∧ (get_similar_movies store movie limit).length ≤ limit := by
  by_cases hg : movie.genres = []
  · simp [get_similar_movies, hg]
  have hbody : get_similar_movies store movie limit
      = similar_body store movie limit := if_neg hg
  have hmem : ∀ m ∈ get_similar_movies store movie limit,
      m.id ≠ movie.id ∧ ∃ g, g ∈ movie.genres ∧ g ∈ m.genres := by
    intro m hm
    rw [hbody] at hm
    unfold similar_body at hm
    obtain ⟨p, hp, hpm⟩ := List.mem_map.mp hm
    have hp2 := List.mem_mergeSort.mp (List.take_subset _ _ hp)
    have hinv := similar_pair_inv store movie p hp2
    rw [← hpm]
    exact ⟨hinv.2.1, exists_of_setInterCard_ne _ _ hinv.2.2.2⟩
  refine ⟨?_, fun h => absurd h hg, hmem, ?_, ?_⟩
  · intro hmm
    exact (hmem movie hmm).1 rfl
  · rw [hbody]
    unfold similar_body
    rw [List.pairwise_map]
    have hsort := List.sorted_mergeSort simDescLe_trans simDescLe_total
      ((store.movies.filter (fun m => decide (m.id ≠ movie.id))).filterMap
        (fun m =>
          if m.genres ≠ [] ∧ setInterCard movie.genres m.genres ≠ 0
          then some (m, setInterCard movie.genres m.genres) else none))
    have htake := hsort.sublist (List.take_sublist limit _)
    refine htake.imp_of_mem ?_
    intro p q hpmem hqmem hle
    have hpinv := similar_pair_inv store movie p
      (List.mem_mergeSort.mp (List.take_subset _ _ hpmem))
    have hqinv := similar_pair_inv store movie q
      (List.mem_mergeSort.mp (List.take_subset _ _ hqmem))
    have hle2 := of_decide_eq_true hle
    rw [← hpinv.1, ← hqinv.1]
    exact hle2
  · rw [hbody]
    unfold similar_body
    rw [List.length_map, List.length_take]
    exact min_le_left _ _

/-- Closed instance of the C6 theorem at a concrete store and movie. -/
theorem c6_similar_movies_contract_witness :
    (⟨1, ["drama"], 8, 90⟩ : Movie) ∉ get_similar_movies
        ⟨[⟨1, ["drama"], 8, 90⟩, ⟨2, ["drama", "action"], 7, 95⟩], []⟩
        ⟨1, ["drama"], 8, 90⟩ 5
    ∧ ((⟨1, ["drama"], 8, 90⟩ : Movie).genres = [] →
        get_similar_movies
          ⟨[⟨1, ["drama"], 8, 90⟩, ⟨2, ["drama", "action"], 7, 95⟩], []⟩
          ⟨1, ["drama"], 8, 90⟩ 5 = [])
    ∧ (∀ m ∈ get_similar_movies
        ⟨[⟨1, ["drama"], 8, 90⟩, ⟨2, ["drama", "action"], 7, 95⟩], []⟩
        ⟨1, ["drama"], 8, 90⟩ 5,
        m.id ≠ (⟨1, ["drama"], 8, 90⟩ : Movie).id
        ∧ ∃ g, g ∈ (⟨1, ["drama"], 8, 90⟩ : Movie).genres ∧ g ∈ m.genres)
    ∧ List.Pairwise (fun a b : Movie =>
        setInterCard ["drama"] b.genres < setInterCard ["drama"] a.genres
        ∨ (setInterCard ["drama"] a.genres = setInterCard ["drama"] b.genres
            ∧ b.vote_average ≤ a.vote_average))
        (get_similar_movies
          ⟨[⟨1, ["drama"], 8, 90⟩, ⟨2, ["drama", "action"], 7, 95⟩], []⟩
          ⟨1, ["drama"], 8, 90⟩ 5)
    ∧ (get_similar_movies
        ⟨[⟨1, ["drama"], 8, 90⟩, ⟨2, ["drama", "action"], 7, 95⟩], []⟩
        ⟨1, ["drama"], 8, 90⟩ 5).length ≤ 5 :=
  c6_similar_movies_contract
    ⟨[⟨1, ["drama"], 8, 90⟩, ⟨2, ["drama", "action"], 7, 95⟩], []⟩
    ⟨1, ["drama"], 8, 90⟩ 5

/-- A valid scalar value below the surrogate range round-trips through
`Char.ofNat`. -/
theorem char_toNat_ofNat {n : Nat} (h : n < 55296) :
    (Char.ofNat n).toNat = n := by
  rw [Char.ofNat, dif_pos (Or.inl h : n.isValidChar)]
  rfl

/-- Lowercasing a character never yields an ASCII uppercase letter. -/
theorem isUpperAscii_lowerChar (c : Char) :
    isUpperAscii (lowerChar c) = false := by
  unfold lowerChar Char.toLower
  by_cases h : c.toNat ≥ 65 ∧ c.toNat ≤ 90
  · rw [if_pos h]
    have hval : (Char.ofNat (c.toNat + 32)).toNat = c.toNat + 32 :=
      char_toNat_ofNat (by omega)
    simp only [isUpperAscii, hval, Bool.and_eq_false_iff,
      decide_eq_false_iff_not]
    right
    omega
  · rw [if_neg h]
    simp only [isUpperAscii, Bool.and_eq_false_iff, decide_eq_false_iff_not]
    omega

/-- A genre produced by the save-time lowercasing contains no ASCII
uppercase letter. -/
theorem hasUpperChar_strLower (s : String) :
    hasUpperChar (strLower s) = false := by
  unfold hasUpperChar strLower
  rw [List.any_eq_false]
  intro c hc
  obtain ⟨d, _, rfl⟩ := List.mem_map.mp hc
  simp [isUpperAscii_lowerChar]

/-- C10: `get_trending_by_genre` matches its genre argument exactly and
case-sensitively: when every stored genre went through the save-time
lowercasing and the query genre contains an uppercase letter, both query
strategies return the empty sequence, for every store and limit. -/
theorem c10_trending_is_case_sensitive (store : Store) (genre : String)
    (limit : Nat)
    (hsaved : ∀ m ∈ store.movies, ∃ raw, m.genres = normalize_genres raw)
    (hup : hasUpperChar genre = true) :
    trending_native store genre limit = []
    ∧ trending_fallback store genre limit = [] := by
  have hnotin : ∀ m ∈ store.movies, genre ∉ m.genres := by
    intro m hm hgen
    obtain ⟨raw, hraw⟩ := hsaved m hm
    rw [hraw] at hgen
    obtain ⟨r, _, hr⟩ := List.mem_map.mp hgen
    rw [← hr, hasUpperChar_strLower] at hup
    cases hup
  constructor
  · unfold trending_native
    have hfil : store.movies.filter (fun m => decide (genre ∈ m.genres))
        = [] := by
      rw [List.filter_eq_nil_iff]
      intro m hm
      simpa using hnotin m hm
    rw [hfil]
    simp
  · unfold trending_fallback
    have hfil : store.movies.filter
        (fun m => decide (m.genres ≠ [] ∧ genre ∈ m.genres)) = [] := by
      rw [List.filter_eq_nil_iff]
      intro m hm
      simp only [decide_eq_true_eq, not_and]
      exact fun _ => hnotin m hm
    rw [hfil]
    simp

/-- Closed instance of the C10 theorem: a store whose only movie was
saved with genres `Drama, Action` (stored lowercased) and the uppercase
query `Drama` return no trending results. -/
theorem c10_trending_is_case_sensitive_witness :
    trending_native
        ⟨[⟨1, normalize_genres ["Drama", "Action"], 8, 90⟩], []⟩ "Drama" 10
      = []
    ∧ trending_fallback
        ⟨[⟨1, normalize_genres ["Drama", "Action"], 8, 90⟩], []⟩ "Drama" 10
      = [] :=
  c10_trending_is_case_sensitive
    ⟨[⟨1, normalize_genres ["Drama", "Action"], 8, 90⟩], []⟩ "Drama" 10
    (by
      intro m hm
      rw [List.mem_singleton] at hm
      subst hm
      exact ⟨["Drama", "Action"], rfl⟩)
    (by decide)

end MovieRec
